import Mathlib

/-!
Verification development for the usage-metering and overage-billing engine of
the stylora-railway backend.

The embedding mirrors three source modules:

* `src/server/emailLimits.ts` — `getUsage`, `trackEmailSend`, `getAllTenantsUsage`;
* `src/server/emailOverageBilling.ts` — `generateMonthlyInvoice`, `handleStripeWebhook`;
* `src/server/stripeWebhook.ts` — `handleInvoicePaymentSucceeded`, `handleInvoicePaymentFailed`.

Modelling conventions:

* JavaScript numbers and the decimal-string database columns are modelled as
  exact rationals (`ℚ`); `Number.prototype.toFixed(2)` becomes `toFixed2`
  (round half towards `+∞` at two decimals, the idealised decimal behaviour)
  and `Math.round` becomes `jsRound`.
* Nullable integer columns are `Option Nat`.  The JavaScript `x || d` default
  on a numeric column treats `0` as falsy, captured by `jsOrNat`; on a
  (non-empty) string column it only replaces `null`, captured by `Option.getD`.
* The database is a record of lists of rows; a SQL `findFirst`/`where eq` is
  `List.find?`, an `update ... where` maps over the list, an `insert` is an
  append.  A thrown `TRPCError` is `Except.error` carrying the error code, and
  a throwing request performs no write (sub-steps that had already written are
  modelled where the source performs them).
* Dates are year/month/day triples; `monthsDiff` mirrors the
  `getFullYear/getMonth` arithmetic of the source.
-/

/-- Calendar date, mirroring the `Date` components the source reads
(`getFullYear`, `getMonth`, `getDate`).  `month` is 1-based. -/
structure Date' where
  year : Nat
  month : Nat
  day : Nat
deriving DecidableEq

/-- JavaScript `x || d` for a nullable numeric column: both `null` and `0` are
falsy and fall back to the default. -/
def jsOrNat (o : Option Nat) (d : Nat) : Nat :=
  match o with
  | none => d
  | some n => if n = 0 then d else n

/-- JavaScript `Math.round`: round half towards `+∞`. -/
def jsRound (q : ℚ) : ℤ := ⌊q + 1/2⌋

/-- JavaScript `Number.prototype.toFixed(2)` (idealised over `ℚ`): round half
towards `+∞` at two decimal places. -/
def toFixed2 (q : ℚ) : ℚ := ((jsRound (q * 100) : ℤ) : ℚ) / 100

/-- A rational is an exact two-decimal value. -/
def TwoDec (q : ℚ) : Prop := ∃ k : ℤ, q = (k : ℚ) / 100

/-- `(now.getFullYear() - start.getFullYear()) * 12 + (now.getMonth() - start.getMonth())`
from `getUsage` in `emailLimits.ts`. -/
def monthsDiff (now s : Date') : ℤ :=
  ((now.year : ℤ) - (s.year : ℤ)) * 12 + ((now.month : ℤ) - (s.month : ℤ))

/-- One row of the `tenants` table, restricted to the columns the metering and
billing code reads or writes. -/
structure Tenant where
  id : String
  emailsSentThisMonth : Option Nat
  emailMonthlyLimit : Option Nat
  emailOverageRate : Option ℚ
  emailOverageCharge : Option ℚ
  currentMonthStart : Option Date'
  vatRate : Option ℚ
  currency : Option String
  subscriptionPlan : Option String
deriving DecidableEq

namespace EmailLimits

/-- The snapshot returned by the `getUsage` query. -/
structure UsageView where
  limit : Nat
  used : Nat
  remaining : Nat
  overageCount : Nat
  overageCharge : ℚ
  overageRate : ℚ
  subscriptionPlan : String
  percentUsed : ℤ
deriving DecidableEq

/-- The "check if we need to reset monthly counter" step of `getUsage`:
true when `currentMonthStart` is absent or the
`getFullYear/getMonth` month difference to `now` is at least one. -/
def needsReset (now : Date') (tenant : Tenant) : Bool :=
  match tenant.currentMonthStart with
  | none => true
  | some currentMonthStart => decide (1 ≤ monthsDiff now currentMonthStart)

/-- `getUsage` from `emailLimits.ts`: conditionally resets the monthly counter
when the stored `currentMonthStart` is absent or at least one calendar month
old, then returns the usage snapshot.  Returns the view together with the
updated tenant row. -/
def getUsage (now : Date') (tenant : Tenant) : UsageView × Tenant :=
  if needsReset now tenant then
    ({ limit := jsOrNat tenant.emailMonthlyLimit 500
       used := 0
       remaining := jsOrNat tenant.emailMonthlyLimit 500
       overageCount := 0
       overageCharge := 0
       overageRate := tenant.emailOverageRate.getD (1/10)
       subscriptionPlan := tenant.subscriptionPlan.getD "basic"
       percentUsed := 0 },
     { tenant with
        emailsSentThisMonth := some 0
        emailOverageCharge := some 0
        currentMonthStart := some ⟨now.year, now.month, 1⟩ })
  else
    let used := tenant.emailsSentThisMonth.getD 0
    let limit := jsOrNat tenant.emailMonthlyLimit 500
    ({ limit := limit
       used := used
       remaining := (max 0 ((limit : ℤ) - (used : ℤ))).toNat
       overageCount := (max 0 ((used : ℤ) - (limit : ℤ))).toNat
       overageCharge := tenant.emailOverageCharge.getD 0
       overageRate := tenant.emailOverageRate.getD (1/10)
       subscriptionPlan := tenant.subscriptionPlan.getD "basic"
       percentUsed := if 0 < limit then jsRound (((used : ℚ) / (limit : ℚ)) * 100) else 0 },
     tenant)

/-- Input of the `trackEmailSend` mutation. -/
structure TrackInput where
  emailType : String
  recipientEmail : String
  subject : Option String
deriving DecidableEq

/-- Value returned by `trackEmailSend`. -/
structure TrackResult where
  success : Bool
  isOverage : Bool
  overageCost : ℚ
  totalUsed : Nat
  remaining : Nat
deriving DecidableEq

/-- One row of the append-only `emailUsageLogs` table, as inserted by
`trackEmailSend`. -/
structure EmailLog where
  tenantId : String
  emailType : String
  recipientEmail : String
  subject : String
  status : String
  isOverage : Bool
  overageCost : ℚ
deriving DecidableEq

/-- The `update tenants set {...}` step of `trackEmailSend`, computed from a
previously read snapshot `snap` and applied to the current row `row`.  The
source performs the read (`findFirst`) and this write as two separate awaited
database calls, so they are deliberately kept separable here. -/
def trackComputeWrite (snap row : Tenant) : Tenant :=
  let used := snap.emailsSentThisMonth.getD 0 + 1
  let limit := jsOrNat snap.emailMonthlyLimit 500
  let overageRate := snap.emailOverageRate.getD (1/10)
  let overageCost := if limit < used then overageRate else 0
  let totalOverageCharge := snap.emailOverageCharge.getD 0 + overageCost
  { row with
      emailsSentThisMonth := some used
      emailOverageCharge := some (toFixed2 totalOverageCharge) }

/-- `trackEmailSend` from `emailLimits.ts`, run without interference: reads the
tenant row, writes the incremented counters back, appends a usage-log row, and
returns the result payload. -/
def trackEmailSend (input : TrackInput) (tenant : Tenant) :
    TrackResult × Tenant × EmailLog :=
  let used := tenant.emailsSentThisMonth.getD 0 + 1
  let limit := jsOrNat tenant.emailMonthlyLimit 500
  let isOverage := decide (limit < used)
  let overageRate := tenant.emailOverageRate.getD (1/10)
  let overageCost := if limit < used then overageRate else 0
  ({ success := true
     isOverage := isOverage
     overageCost := overageCost
     totalUsed := used
     remaining := (max 0 ((limit : ℤ) - (used : ℤ))).toNat },
   trackComputeWrite tenant tenant,
   { tenantId := tenant.id
     emailType := input.emailType
     recipientEmail := input.recipientEmail
     subject := input.subject.getD ""
     status := "sent"
     isOverage := isOverage
     overageCost := toFixed2 overageCost })

/-- The `percentUsed` computed per tenant by `getAllTenantsUsage` in
`emailLimits.ts`: `tenant.emailMonthlyLimit ? Math.round(...) : 0`, where both
a missing and a zero limit are falsy. -/
def getAllTenantsUsagePercent (tenant : Tenant) : ℤ :=
  match tenant.emailMonthlyLimit with
  | none => 0
  | some l =>
    if l = 0 then 0
    else jsRound (((tenant.emailsSentThisMonth.getD 0 : ℚ) / (l : ℚ)) * 100)

end EmailLimits

/-- Status column of the `emailOverageInvoices` / `smsOverageInvoices` tables. -/
inductive InvoiceStatus
  | pending
  | paid
  | failed
  | cancelled
deriving DecidableEq

/-- One row of an overage-invoice table, restricted to the columns the billing
and webhook code reads or writes.  `paidAt` is an epoch-millisecond timestamp.
`id` is the auto-increment primary key. -/
structure Invoice where
  id : Nat
  tenantId : String
  invoiceNumber : String
  billingPeriodStart : Date'
  billingPeriodEnd : Date'
  emailsOverLimit : Nat
  overageRate : ℚ
  subtotal : ℚ
  vatRate : ℚ
  vatAmount : ℚ
  totalAmount : ℚ
  currency : String
  status : InvoiceStatus
  dueDate : Date'
  stripeInvoiceId : Option String
  stripePaymentIntentId : Option String
  paidAt : Option Nat
deriving DecidableEq

/-- Gregorian leap year. -/
def isLeap (y : Nat) : Bool := (y % 4 == 0 && y % 100 != 0) || y % 400 == 0

/-- Number of days in a Gregorian month. -/
def daysInMonth (y m : Nat) : Nat :=
  if m = 2 then (if isLeap y then 29 else 28)
  else if m = 4 ∨ m = 6 ∨ m = 9 ∨ m = 11 then 30
  else 31

/-- Successor day in the Gregorian calendar. -/
def nextDay (d : Date') : Date' :=
  if d.day < daysInMonth d.year d.month then ⟨d.year, d.month, d.day + 1⟩
  else if d.month < 12 then ⟨d.year, d.month + 1, 1⟩
  else ⟨d.year + 1, 1, 1⟩

/-- `date.setDate(date.getDate() + n)`: advance a date by `n` days. -/
def addDays (n : Nat) (d : Date') : Date' :=
  Nat.rec d (fun _ acc => nextDay acc) n

/-- Two-digit zero padding, from
`String(date.getMonth() + 1).padStart(2, '0')`. -/
def pad2 (n : Nat) : String := if n < 10 then "0" ++ toString n else toString n

namespace EmailOverageBilling

/-- `generateInvoiceNumber` from `emailOverageBilling.ts`:
`INV-${year}${month}-${first 8 chars of tenant id, uppercased}`. -/
def generateInvoiceNumber (tenantId : String) (date : Date') : String :=
  "INV-" ++ toString date.year ++ pad2 date.month ++ "-"
    ++ (tenantId.take 8).toUpper

/-- The TRPC error codes thrown by the billing router. -/
inductive BillErr
  | internalServerError
  | notFound
  | conflict
  | badRequest
deriving DecidableEq

/-- The database state the billing router touches: the `tenants` table and the
`emailOverageInvoices` table. -/
structure BillingState where
  tenants : List Tenant
  invoices : List Invoice
deriving DecidableEq

/-- Input of the `generateMonthlyInvoice` mutation.  The ISO period-boundary
strings are modelled as structured dates (equal strings iff equal dates). -/
structure GenInput where
  tenantId : String
  billingPeriodStart : Date'
  billingPeriodEnd : Date'
deriving DecidableEq

/-- Value returned by `generateMonthlyInvoice`. -/
structure GenResult where
  success : Bool
  invoiceId : Nat
  invoiceNumber : String
  totalAmount : ℚ
deriving DecidableEq

/-- `generateMonthlyInvoice` from `emailOverageBilling.ts`: refuses a duplicate
invoice for the same (tenant, period start, period end) tuple, refuses a zero
overage, and otherwise inserts a `pending` invoice with the computed amounts
stored at two decimals. -/
def generateMonthlyInvoice (st : BillingState) (input : GenInput) :
    Except BillErr (GenResult × BillingState) :=
  match st.tenants.find? (fun t => decide (t.id = input.tenantId)) with
  | none => .error .notFound
  | some tenant =>
    match st.invoices.find? (fun inv =>
        decide (inv.tenantId = input.tenantId ∧
          inv.billingPeriodStart = input.billingPeriodStart ∧
          inv.billingPeriodEnd = input.billingPeriodEnd)) with
    | some _ => .error .conflict
    | none =>
      let emailsOverLimit :=
        (max 0 ((tenant.emailsSentThisMonth.getD 0 : ℤ)
          - (jsOrNat tenant.emailMonthlyLimit 500 : ℤ))).toNat
      if emailsOverLimit = 0 then .error .badRequest
      else
        let overageRate := tenant.emailOverageRate.getD (1/10)
        let subtotal := (emailsOverLimit : ℚ) * overageRate
        let vatRate := tenant.vatRate.getD 25
        let vatAmount := subtotal * vatRate / 100
        let totalAmount := subtotal + vatAmount
        let invoiceNumber := generateInvoiceNumber input.tenantId input.billingPeriodEnd
        let dueDate := addDays 30 input.billingPeriodEnd
        let invoice : Invoice :=
          { id := st.invoices.length
            tenantId := input.tenantId
            invoiceNumber := invoiceNumber
            billingPeriodStart := input.billingPeriodStart
            billingPeriodEnd := input.billingPeriodEnd
            emailsOverLimit := emailsOverLimit
            overageRate := toFixed2 overageRate
            subtotal := toFixed2 subtotal
            vatRate := toFixed2 vatRate
            vatAmount := toFixed2 vatAmount
            totalAmount := toFixed2 totalAmount
            currency := tenant.currency.getD "NOK"
            status := .pending
            dueDate := dueDate
            stripeInvoiceId := none
            stripePaymentIntentId := none
            paidAt := none }
        .ok ({ success := true
               invoiceId := invoice.id
               invoiceNumber := invoiceNumber
               totalAmount := toFixed2 totalAmount },
             { st with invoices := st.invoices ++ [invoice] })

/-- The state observed by a caller after `generateMonthlyInvoice` completes:
a thrown `TRPCError` means no insert happened, so the state is unchanged. -/
def generateMonthlyInvoiceRun (st : BillingState) (input : GenInput) : BillingState :=
  match generateMonthlyInvoice st input with
  | .ok (_, st') => st'
  | .error _ => st

/-- Status value of the `handleStripeWebhook` mutation input
(`z.enum(["paid", "failed"])`). -/
inductive WStatus
  | paid
  | failed
deriving DecidableEq

/-- Embeds the webhook input status into the invoice status column. -/
def wstatusToInvoice : WStatus → InvoiceStatus
  | .paid => .paid
  | .failed => .failed

/-- Input of the `handleStripeWebhook` mutation. -/
structure WebhookInput where
  stripeInvoiceId : String
  status : WStatus
  paidAt : Option Nat
deriving DecidableEq

/-- Value returned by `handleStripeWebhook`. -/
structure WResult where
  success : Bool
deriving DecidableEq

/-- The `update emailOverageInvoices set {status, paidAt} where id = invId`
write of `handleStripeWebhook`, applied row-wise. -/
def applyWStatus (invId : Nat) (s : InvoiceStatus) (paidAt : Option Nat)
    (row : Invoice) : Invoice :=
  if row.id = invId then { row with status := s, paidAt := paidAt } else row

/-- The `update tenants set {emailOverageCharge: "0.00"} where id = tenantId`
write of `handleStripeWebhook`, applied row-wise. -/
def resetCharge (tenantId : String) (row : Tenant) : Tenant :=
  if row.id = tenantId then { row with emailOverageCharge := some 0 } else row

/-- `handleStripeWebhook` from `emailOverageBilling.ts`: looks the invoice up
by its remote (Stripe) invoice id, throws `NOT_FOUND` when absent, otherwise
unconditionally overwrites `status` and `paidAt` and, on a `paid` event,
resets the owning tenant's accrued overage charge. -/
def handleStripeWebhook (st : BillingState) (input : WebhookInput) :
    Except BillErr (WResult × BillingState) :=
  match st.invoices.find? (fun r =>
      decide (r.stripeInvoiceId = some input.stripeInvoiceId)) with
  | none => .error .notFound
  | some invoice =>
    let invoices' := st.invoices.map
      (applyWStatus invoice.id (wstatusToInvoice input.status) input.paidAt)
    let tenants' :=
      if input.status = .paid then st.tenants.map (resetCharge invoice.tenantId)
      else st.tenants
    .ok ({ success := true }, { tenants := tenants', invoices := invoices' })

end EmailOverageBilling

namespace StripeWebhook

/-- The fields of a `Stripe.Invoice` payload the handlers read:
`invoice.id`, `invoice.status_transition.paid_at` (seconds, asserted
non-null), and `invoice.payment_intent`. -/
structure StripeInvoiceEvent where
  id : String
  paidAtSec : Nat
  paymentIntent : Option String
deriving DecidableEq

/-- The two invoice tables `stripeWebhook.ts` searches. -/
structure WebhookDb where
  emailInvoices : List Invoice
  smsInvoices : List Invoice
deriving DecidableEq

/-- The `{type, invoiceNumber}` record the handlers return on a match. -/
structure HandlerNote where
  type : String
  invoiceNumber : String
deriving DecidableEq

/-- Row update performed on a matched email invoice by
`handleInvoicePaymentSucceeded`. -/
def applyEmailPaid (invId : Nat) (paidAt : Nat) (paymentIntent : Option String)
    (row : Invoice) : Invoice :=
  if row.id = invId then
    { row with status := .paid, paidAt := some paidAt,
               stripePaymentIntentId := paymentIntent }
  else row

/-- Row update performed on a matched SMS invoice by
`handleInvoicePaymentSucceeded`. -/
def applySmsPaid (invId : Nat) (paidAt : Nat) (row : Invoice) : Invoice :=
  if row.id = invId then { row with status := .paid, paidAt := some paidAt }
  else row

/-- Row update performed on a matched invoice by
`handleInvoicePaymentFailed`. -/
def applyFailed (invId : Nat) (row : Invoice) : Invoice :=
  if row.id = invId then { row with status := .failed } else row

/-- `handleInvoicePaymentSucceeded` from `stripeWebhook.ts`: marks the matching
email (else SMS) overage invoice paid; when no invoice matches it only logs a
warning and returns `null`, modifying nothing and raising nothing. -/
def handleInvoicePaymentSucceeded (db : WebhookDb) (invoice : StripeInvoiceEvent) :
    Option HandlerNote × WebhookDb :=
  let paidAt := invoice.paidAtSec * 1000
  match db.emailInvoices.find? (fun r =>
      decide (r.stripeInvoiceId = some invoice.id)) with
  | some emailInvoice =>
    (some { type := "email", invoiceNumber := emailInvoice.invoiceNumber },
     { db with emailInvoices :=
        db.emailInvoices.map (applyEmailPaid emailInvoice.id paidAt invoice.paymentIntent) })
  | none =>
    match db.smsInvoices.find? (fun r =>
        decide (r.stripeInvoiceId = some invoice.id)) with
    | some smsInvoice =>
      (some { type := "sms", invoiceNumber := smsInvoice.invoiceNumber },
       { db with smsInvoices :=
          db.smsInvoices.map (applySmsPaid smsInvoice.id paidAt) })
    | none => (none, db)

/-- `handleInvoicePaymentFailed` from `stripeWebhook.ts`: marks the matching
email (else SMS) overage invoice failed; when no invoice matches it only logs
a warning and returns `null`, modifying nothing and raising nothing. -/
def handleInvoicePaymentFailed (db : WebhookDb) (invoice : StripeInvoiceEvent) :
    Option HandlerNote × WebhookDb :=
  match db.emailInvoices.find? (fun r =>
      decide (r.stripeInvoiceId = some invoice.id)) with
  | some emailInvoice =>
    (some { type := "email", invoiceNumber := emailInvoice.invoiceNumber },
     { db with emailInvoices := db.emailInvoices.map (applyFailed emailInvoice.id) })
  | none =>
    match db.smsInvoices.find? (fun r =>
        decide (r.stripeInvoiceId = some invoice.id)) with
    | some smsInvoice =>
      (some { type := "sms", invoiceNumber := smsInvoice.invoiceNumber },
       { db with smsInvoices := db.smsInvoices.map (applyFailed smsInvoice.id) })
    | none => (none, db)

end StripeWebhook

namespace EmailLimits

/-- One complete, uninterfered `trackEmailSend` database round-trip restricted
to the tenant row: read the row, then write the update computed from it. -/
def trackCall (t : Tenant) : Tenant := trackComputeWrite t t

/-- `n` sequential (serialised) `trackEmailSend` calls. -/
def trackCallIter : Nat → Tenant → Tenant
  | 0, t => t
  | n + 1, t => trackCallIter n (trackCall t)

/-- Progress of one in-flight `trackEmailSend` request: not yet read the
tenant row, read it (holding the snapshot), or written the update back. -/
inductive CallPhase
  | ready
  | readDone (snap : Tenant)
  | done
deriving DecidableEq

/-- Two concurrent `trackEmailSend` requests for the same tenant, plus the
shared database row. -/
structure TwoTrack where
  a : CallPhase
  b : CallPhase
  db : Tenant
deriving DecidableEq

/-- Advance one request (`true` = request A, `false` = request B) by one
database operation: its read (`findFirst`) or its write (`update`).  The write
uses the snapshot taken by that request's own earlier read, exactly as the
source computes the new counters from the previously fetched `tenant`. -/
def stepTrack (who : Bool) (s : TwoTrack) : TwoTrack :=
  if who then
    match s.a with
    | .ready => { s with a := .readDone s.db }
    | .readDone snap => { s with a := .done, db := trackComputeWrite snap s.db }
    | .done => s
  else
    match s.b with
    | .ready => { s with b := .readDone s.db }
    | .readDone snap => { s with b := .done, db := trackComputeWrite snap s.db }
    | .done => s

/-- Run a schedule (list of which request performs the next database
operation) from a system state. -/
def runTrack (sched : List Bool) (s : TwoTrack) : TwoTrack :=
  sched.foldl (fun st who => stepTrack who st) s

end EmailLimits

/-- Rounding at two decimals fixes exact two-decimal values. -/
theorem toFixed2_eq_self {q : ℚ} (h : TwoDec q) : toFixed2 q = q := by
  obtain ⟨k, rfl⟩ := h
  unfold toFixed2 jsRound
  have h100 : ((k : ℚ) / 100) * 100 = (k : ℚ) := by
    field_simp
  rw [h100]
  have : ⌊(k : ℚ) + 1 / 2⌋ = k + ⌊(1 / 2 : ℚ)⌋ := Int.floor_int_add k (1/2)
  rw [this]
  norm_num

/-- Rounding at two decimals commutes with adding an exact two-decimal
value. -/
theorem toFixed2_twoDec_add {a : ℚ} (x : ℚ) (h : TwoDec a) :
    toFixed2 (a + x) = a + toFixed2 x := by
  obtain ⟨k, rfl⟩ := h
  unfold toFixed2 jsRound
  have hexp : ((k : ℚ) / 100 + x) * 100 = (k : ℚ) + x * 100 := by
    field_simp
  rw [hexp]
  have hassoc : (k : ℚ) + x * 100 + 1 / 2 = (k : ℚ) + (x * 100 + 1 / 2) := by ring
  rw [hassoc, Int.floor_int_add]
  push_cast
  ring

/-- The result of two-decimal rounding is an exact two-decimal value. -/
theorem twoDec_toFixed2 (q : ℚ) : TwoDec (toFixed2 q) :=
  ⟨jsRound (q * 100), rfl⟩

/-- Evaluation principle for `jsRound` via the floor characterisation. -/
theorem jsRound_eq_of (q : ℚ) (z : ℤ) (h1 : (z : ℚ) ≤ q + 1/2)
    (h2 : q + 1/2 < (z : ℚ) + 1) : jsRound q = z := by
  unfold jsRound
  exact Int.floor_eq_iff.mpr ⟨h1, h2⟩

/-- Concrete tenant used for the `percentUsed` instance of claim C6:
limit 500, 375 emails sent, inside the current period. -/
def c6Tenant : Tenant :=
  { id := "tenant-1"
    emailsSentThisMonth := some 375
    emailMonthlyLimit := some 500
    emailOverageRate := some (1/10)
    emailOverageCharge := some 0
    currentMonthStart := some ⟨2025, 10, 1⟩
    vatRate := some 25
    currency := some "NOK"
    subscriptionPlan := some "basic" }

/-- Concrete tenant with a configured limit of `0`, exercising the
division-guard of `getAllTenantsUsage`. -/
def c6ZeroLimitTenant : Tenant :=
  { c6Tenant with emailMonthlyLimit := some 0 }

/-- C6: every usage view returned by `getUsage` satisfies
`remaining = max(0, limit - used)`, `overageCount = max(0, used - limit)`, and
`percentUsed = round(100 * used / limit)` when `limit > 0` and `0` when
`limit = 0`; in particular limit 500 and used 375 give `percentUsed = 75`, and
a stored limit of `0` yields `percentUsed = 0` in `getAllTenantsUsage` rather
than a division by zero. -/
theorem c6_usage_view_formulas :
    (∀ (now : Date') (t : Tenant),
      (((EmailLimits.getUsage now t).1.remaining : ℤ) =
        max 0 (((EmailLimits.getUsage now t).1.limit : ℤ)
          - ((EmailLimits.getUsage now t).1.used : ℤ))) ∧
      (((EmailLimits.getUsage now t).1.overageCount : ℤ) =
        max 0 (((EmailLimits.getUsage now t).1.used : ℤ)
          - ((EmailLimits.getUsage now t).1.limit : ℤ))) ∧
      ((EmailLimits.getUsage now t).1.percentUsed =
        if 0 < (EmailLimits.getUsage now t).1.limit then
          jsRound ((((EmailLimits.getUsage now t).1.used : ℚ)
            / ((EmailLimits.getUsage now t).1.limit : ℚ)) * 100)
        else 0)) ∧
    ((EmailLimits.getUsage ⟨2025, 10, 15⟩ c6Tenant).1.percentUsed = 75) ∧
    (EmailLimits.getAllTenantsUsagePercent c6ZeroLimitTenant = 0) := by
  refine ⟨fun now t => ?_, ?_, by decide⟩
  · by_cases hr : EmailLimits.needsReset now t
    · simp only [EmailLimits.getUsage, hr, if_true]
      refine ⟨by simp, by simp, ?_⟩
      by_cases hl : 0 < jsOrNat t.emailMonthlyLimit 500
      · simp only [hl, if_true]
        rw [Nat.cast_zero, zero_div, zero_mul,
          jsRound_eq_of 0 0 (by norm_num) (by norm_num)]
      · simp [hl]
    · simp only [EmailLimits.getUsage, hr, if_false, Bool.false_eq_true]
      refine ⟨?_, ?_, trivial⟩
      · exact (Int.toNat_of_nonneg (le_max_left 0 _)).symm ▸ rfl
      · exact (Int.toNat_of_nonneg (le_max_left 0 _)).symm ▸ rfl
  · have hnr : EmailLimits.needsReset ⟨2025, 10, 15⟩ c6Tenant = false := by decide
    simp only [EmailLimits.getUsage, hnr, if_false, Bool.false_eq_true]
    have hlim : jsOrNat c6Tenant.emailMonthlyLimit 500 = 500 := by decide
    have hused : c6Tenant.emailsSentThisMonth.getD 0 = 375 := by decide
    simp only [hlim, hused]
    norm_num
    exact jsRound_eq_of _ 75 (by norm_num) (by norm_num)

/-- C10: `trackEmailSend` performs no period-boundary check: even when the
stored period start lies in a calendar month strictly before the current
wall-clock month, the stored `currentMonthStart` is left unchanged and the
increment and overage charge are applied to the stale stored counters. -/
theorem c10_trackEmailSend_ignores_period :
    ∀ (input : EmailLimits.TrackInput) (t : Tenant) (now s : Date'),
      t.currentMonthStart = some s →
      s.year * 12 + s.month < now.year * 12 + now.month →
      (EmailLimits.trackEmailSend input t).2.1.currentMonthStart = t.currentMonthStart ∧
      (EmailLimits.trackEmailSend input t).2.1.emailsSentThisMonth =
        some (t.emailsSentThisMonth.getD 0 + 1) ∧
      (EmailLimits.trackEmailSend input t).2.1.emailOverageCharge =
        some (toFixed2 (t.emailOverageCharge.getD 0 +
          if jsOrNat t.emailMonthlyLimit 500 < t.emailsSentThisMonth.getD 0 + 1
          then t.emailOverageRate.getD (1/10) else 0)) := by
  intro input t now s _ _
  exact ⟨rfl, rfl, rfl⟩

/-- C4: when the stored period start is absent or lies in a calendar month
strictly before the current month, `getUsage` resets the counter to 0 and the
accrued charge to 0, stamps the period start with the first day of the current
month, persists that row, and returns the reset snapshot; and any second call
within the same calendar month leaves the stored row (and hence its period
start) unchanged. -/
theorem c4_getUsage_period_reset :
    ∀ (now : Date') (t : Tenant),
      ((t.currentMonthStart = none ∨
          ∃ s, t.currentMonthStart = some s ∧
            s.year * 12 + s.month < now.year * 12 + now.month) →
        EmailLimits.getUsage now t =
          ({ limit := jsOrNat t.emailMonthlyLimit 500
             used := 0
             remaining := jsOrNat t.emailMonthlyLimit 500
             overageCount := 0
             overageCharge := 0
             overageRate := t.emailOverageRate.getD (1/10)
             subscriptionPlan := t.subscriptionPlan.getD "basic"
             percentUsed := 0 },
           { t with
              emailsSentThisMonth := some 0
              emailOverageCharge := some 0
              currentMonthStart := some ⟨now.year, now.month, 1⟩ })) ∧
      (∀ now' : Date', now'.year = now.year → now'.month = now.month →
        (EmailLimits.getUsage now' (EmailLimits.getUsage now t).2).2 =
          (EmailLimits.getUsage now t).2) := by
  intro now t
  constructor
  · intro hstale
    have hr : EmailLimits.needsReset now t = true := by
      rcases hstale with h | ⟨s, hs, hlt⟩
      · unfold EmailLimits.needsReset
        rw [h]
      · unfold EmailLimits.needsReset
        rw [hs]
        simp only [decide_eq_true_eq]
        unfold monthsDiff
        omega
    simp only [EmailLimits.getUsage, hr, if_true]
  · intro now' hy hm
    by_cases hr : EmailLimits.needsReset now t = true
    · simp only [EmailLimits.getUsage, hr, if_true]
      have hr2 : EmailLimits.needsReset now'
          { t with
             emailsSentThisMonth := some 0
             emailOverageCharge := some 0
             currentMonthStart := some ⟨now.year, now.month, 1⟩ } = false := by
        unfold EmailLimits.needsReset monthsDiff
        simp only [decide_eq_false_iff_not]
        rw [hy, hm]
        omega
      simp only [EmailLimits.getUsage, hr2, Bool.false_eq_true, if_false]
    · rw [Bool.not_eq_true] at hr
      simp only [EmailLimits.getUsage, hr, Bool.false_eq_true, if_false]
      have hr2 : EmailLimits.needsReset now' t = false := by
        unfold EmailLimits.needsReset at hr ⊢
        cases hcms : t.currentMonthStart with
        | none => rw [hcms] at hr; exact absurd hr (by simp)
        | some s =>
          rw [hcms] at hr
          simp only [decide_eq_false_iff_not] at hr ⊢
          unfold monthsDiff at hr ⊢
          rw [hy, hm]
          omega
      simp only [EmailLimits.getUsage, hr2, Bool.false_eq_true, if_false]

/-- Witness for C4: a tenant whose stored period start is September 2025,
queried in October 2025, is reset (counter 0, charge 0, period start
2025-10-01); querying again later the same month changes nothing. -/
theorem c4_witness :
    ((EmailLimits.getUsage ⟨2025, 10, 15⟩
        { c6Tenant with currentMonthStart := some ⟨2025, 9, 1⟩ }).2.emailsSentThisMonth =
      some 0) ∧
    ((EmailLimits.getUsage ⟨2025, 10, 15⟩
        { c6Tenant with currentMonthStart := some ⟨2025, 9, 1⟩ }).2.emailOverageCharge =
      some 0) ∧
    ((EmailLimits.getUsage ⟨2025, 10, 15⟩
        { c6Tenant with currentMonthStart := some ⟨2025, 9, 1⟩ }).2.currentMonthStart =
      some ⟨2025, 10, 1⟩) ∧
    ((EmailLimits.getUsage ⟨2025, 10, 15⟩
        { c6Tenant with currentMonthStart := some ⟨2025, 9, 1⟩ }).1.used = 0) ∧
    ((EmailLimits.getUsage ⟨2025, 10, 20⟩
        (EmailLimits.getUsage ⟨2025, 10, 15⟩
          { c6Tenant with currentMonthStart := some ⟨2025, 9, 1⟩ }).2).2 =
      (EmailLimits.getUsage ⟨2025, 10, 15⟩
        { c6Tenant with currentMonthStart := some ⟨2025, 9, 1⟩ }).2) := by
  have h := c4_getUsage_period_reset ⟨2025, 10, 15⟩
    { c6Tenant with currentMonthStart := some ⟨2025, 9, 1⟩ }
  have h1 := h.1 (Or.inr ⟨⟨2025, 9, 1⟩, rfl, by norm_num⟩)
  exact ⟨by rw [h1], by rw [h1], by rw [h1], by rw [h1],
    h.2 ⟨2025, 10, 20⟩ rfl rfl⟩

/-- The `emailMonthlyLimit || 500` default: a missing (`null`) and a zero
limit are both falsy, so `getUsage`, `trackEmailSend` and
`generateMonthlyInvoice` behave exactly as with a configured limit of 500;
returned values agree and the resulting states agree up to the (never
written) `emailMonthlyLimit` column itself. -/
theorem falsyLimit_default_aux :
    ∀ (l : Option Nat), (l = none ∨ l = some 0) →
    ∀ (t : Tenant) (now : Date') (input : EmailLimits.TrackInput)
      (invs : List Invoice) (gi : EmailOverageBilling.GenInput),
      ((EmailLimits.getUsage now { t with emailMonthlyLimit := l }).1 =
        (EmailLimits.getUsage now { t with emailMonthlyLimit := some 500 }).1) ∧
      ((EmailLimits.getUsage now { t with emailMonthlyLimit := l }).2 =
        { (EmailLimits.getUsage now { t with emailMonthlyLimit := some 500 }).2 with
            emailMonthlyLimit := l }) ∧
      ((EmailLimits.trackEmailSend input { t with emailMonthlyLimit := l }).1 =
        (EmailLimits.trackEmailSend input { t with emailMonthlyLimit := some 500 }).1) ∧
      ((EmailLimits.trackEmailSend input { t with emailMonthlyLimit := l }).2.1 =
        { (EmailLimits.trackEmailSend input
            { t with emailMonthlyLimit := some 500 }).2.1 with
            emailMonthlyLimit := l }) ∧
      ((EmailLimits.trackEmailSend input { t with emailMonthlyLimit := l }).2.2 =
        (EmailLimits.trackEmailSend input { t with emailMonthlyLimit := some 500 }).2.2) ∧
      ((EmailOverageBilling.generateMonthlyInvoice
          ⟨[{ t with emailMonthlyLimit := l }], invs⟩ gi).map
            (fun r => (r.1, r.2.invoices)) =
        (EmailOverageBilling.generateMonthlyInvoice
          ⟨[{ t with emailMonthlyLimit := some 500 }], invs⟩ gi).map
            (fun r => (r.1, r.2.invoices))) := by
  intro l hl t now input invs gi
  obtain ⟨tid, tu, tl, tr, tc, tcm, tv, tcu, tp⟩ := t
  have hnr : ∀ (x : Option Nat),
      EmailLimits.needsReset now
          { id := tid, emailsSentThisMonth := tu, emailMonthlyLimit := x,
            emailOverageRate := tr, emailOverageCharge := tc,
            currentMonthStart := tcm, vatRate := tv, currency := tcu,
            subscriptionPlan := tp } =
        EmailLimits.needsReset now
          { id := tid, emailsSentThisMonth := tu, emailMonthlyLimit := tl,
            emailOverageRate := tr, emailOverageCharge := tc,
            currentMonthStart := tcm, vatRate := tv, currency := tcu,
            subscriptionPlan := tp } := fun _ => rfl
  refine ⟨?_, ?_, ?_, ?_, ?_, ?_⟩
  case refine_1 =>
    by_cases hr : EmailLimits.needsReset now
        { id := tid, emailsSentThisMonth := tu, emailMonthlyLimit := tl,
          emailOverageRate := tr, emailOverageCharge := tc,
          currentMonthStart := tcm, vatRate := tv, currency := tcu,
          subscriptionPlan := tp } = true
    · simp only [EmailLimits.getUsage, hnr, hr, if_true]
      rcases hl with rfl | rfl <;> rfl
    · rw [Bool.not_eq_true] at hr
      simp only [EmailLimits.getUsage, hnr, hr, Bool.false_eq_true, if_false]
      rcases hl with rfl | rfl <;> rfl
  case refine_2 =>
    by_cases hr : EmailLimits.needsReset now
        { id := tid, emailsSentThisMonth := tu, emailMonthlyLimit := tl,
          emailOverageRate := tr, emailOverageCharge := tc,
          currentMonthStart := tcm, vatRate := tv, currency := tcu,
          subscriptionPlan := tp } = true
    · simp only [EmailLimits.getUsage, hnr, hr, if_true]
    · rw [Bool.not_eq_true] at hr
      simp only [EmailLimits.getUsage, hnr, hr, Bool.false_eq_true, if_false]
  case refine_3 => rcases hl with rfl | rfl <;> rfl
  case refine_4 => rcases hl with rfl | rfl <;> rfl
  case refine_5 => rcases hl with rfl | rfl <;> rfl
  case refine_6 =>
    rcases hl with rfl | rfl <;>
    · simp only [EmailOverageBilling.generateMonthlyInvoice, List.find?_singleton]
      by_cases hid : tid = gi.tenantId
      · subst hid
        simp only [decide_eq_true_eq, if_pos rfl]
        cases hf : invs.find? (fun inv =>
            decide (inv.tenantId = gi.tenantId ∧
              inv.billingPeriodStart = gi.billingPeriodStart ∧
              inv.billingPeriodEnd = gi.billingPeriodEnd)) with
        | some inv0 => simp [hf]
        | none =>
          simp only [hf, jsOrNat]
          by_cases hov :
              ((max 0 ((tu.getD 0 : ℤ) - (500 : ℤ))).toNat = 0)
          · simp [hov]
          · simp [hov]
            rfl
      · simp [hid]

/-- The `parseFloat(tenant.emailOverageRate || "0.10")` default: an unset
overage rate makes `getUsage`, `trackEmailSend` and `generateMonthlyInvoice`
behave exactly as with a configured rate of 0.10; returned values agree and
the resulting states agree up to the (never written) `emailOverageRate`
column itself. -/
theorem falsyRate_default_aux :
    ∀ (t : Tenant) (now : Date') (input : EmailLimits.TrackInput)
      (invs : List Invoice) (gi : EmailOverageBilling.GenInput),
      ((EmailLimits.getUsage now { t with emailOverageRate := none }).1 =
        (EmailLimits.getUsage now { t with emailOverageRate := some (1/10) }).1) ∧
      ((EmailLimits.getUsage now { t with emailOverageRate := none }).2 =
        { (EmailLimits.getUsage now
            { t with emailOverageRate := some (1/10) }).2 with
            emailOverageRate := none }) ∧
      ((EmailLimits.trackEmailSend input { t with emailOverageRate := none }).1 =
        (EmailLimits.trackEmailSend input
          { t with emailOverageRate := some (1/10) }).1) ∧
      ((EmailLimits.trackEmailSend input { t with emailOverageRate := none }).2.1 =
        { (EmailLimits.trackEmailSend input
            { t with emailOverageRate := some (1/10) }).2.1 with
            emailOverageRate := none }) ∧
      ((EmailLimits.trackEmailSend input { t with emailOverageRate := none }).2.2 =
        (EmailLimits.trackEmailSend input
          { t with emailOverageRate := some (1/10) }).2.2) ∧
      ((EmailOverageBilling.generateMonthlyInvoice
          ⟨[{ t with emailOverageRate := none }], invs⟩ gi).map
            (fun r => (r.1, r.2.invoices)) =
        (EmailOverageBilling.generateMonthlyInvoice
          ⟨[{ t with emailOverageRate := some (1/10) }], invs⟩ gi).map
            (fun r => (r.1, r.2.invoices))) := by
  intro t now input invs gi
  obtain ⟨tid, tu, tl, tr, tc, tcm, tv, tcu, tp⟩ := t
  have hnr : ∀ (x : Option ℚ),
      EmailLimits.needsReset now
          { id := tid, emailsSentThisMonth := tu, emailMonthlyLimit := tl,
            emailOverageRate := x, emailOverageCharge := tc,
            currentMonthStart := tcm, vatRate := tv, currency := tcu,
            subscriptionPlan := tp } =
        EmailLimits.needsReset now
          { id := tid, emailsSentThisMonth := tu, emailMonthlyLimit := tl,
            emailOverageRate := tr, emailOverageCharge := tc,
            currentMonthStart := tcm, vatRate := tv, currency := tcu,
            subscriptionPlan := tp } := fun _ => rfl
  refine ⟨?_, ?_, ?_, ?_, ?_, ?_⟩
  case refine_1 =>
    by_cases hr : EmailLimits.needsReset now
        { id := tid, emailsSentThisMonth := tu, emailMonthlyLimit := tl,
          emailOverageRate := tr, emailOverageCharge := tc,
          currentMonthStart := tcm, vatRate := tv, currency := tcu,
          subscriptionPlan := tp } = true
    · simp only [EmailLimits.getUsage, hnr, hr, if_true]
      rfl
    · rw [Bool.not_eq_true] at hr
      simp only [EmailLimits.getUsage, hnr, hr, Bool.false_eq_true, if_false]
      rfl
  case refine_2 =>
    by_cases hr : EmailLimits.needsReset now
        { id := tid, emailsSentThisMonth := tu, emailMonthlyLimit := tl,
          emailOverageRate := tr, emailOverageCharge := tc,
          currentMonthStart := tcm, vatRate := tv, currency := tcu,
          subscriptionPlan := tp } = true
    · simp only [EmailLimits.getUsage, hnr, hr, if_true]
    · rw [Bool.not_eq_true] at hr
      simp only [EmailLimits.getUsage, hnr, hr, Bool.false_eq_true, if_false]
  case refine_3 => rfl
  case refine_4 => rfl
  case refine_5 => rfl
  case refine_6 =>
    simp only [EmailOverageBilling.generateMonthlyInvoice, List.find?_singleton]
    by_cases hid : tid = gi.tenantId
    · subst hid
      simp only [decide_eq_true_eq, if_pos rfl]
      cases hf : invs.find? (fun inv =>
          decide (inv.tenantId = gi.tenantId ∧
            inv.billingPeriodStart = gi.billingPeriodStart ∧
            inv.billingPeriodEnd = gi.billingPeriodEnd)) with
      | some inv0 => simp [hf]
      | none =>
        simp only [hf]
        by_cases hov :
            ((max 0 ((tu.getD 0 : ℤ) - (jsOrNat tl 500 : ℤ))).toNat = 0)
        · simp [hov]
        · simp [hov]
          rfl
    · simp [hid]

/-- C9: the falsy configuration defaults of the source are observable
behaviour.  A missing (`null`) and a zero `emailMonthlyLimit` are both falsy
under `tenant.emailMonthlyLimit || 500`, so `getUsage`, `trackEmailSend` and
`generateMonthlyInvoice` behave exactly as with a configured limit of 500;
likewise an unset `emailOverageRate` falls back to
`parseFloat(tenant.emailOverageRate || "0.10")`, so those three endpoints
behave exactly as with a configured rate of 0.10.  In each case the returned
values agree and the resulting states agree up to the (never written)
configuration column itself. -/
theorem c9_falsy_config_uses_defaults :
    (∀ (l : Option Nat), (l = none ∨ l = some 0) →
    ∀ (t : Tenant) (now : Date') (input : EmailLimits.TrackInput)
      (invs : List Invoice) (gi : EmailOverageBilling.GenInput),
      ((EmailLimits.getUsage now { t with emailMonthlyLimit := l }).1 =
        (EmailLimits.getUsage now { t with emailMonthlyLimit := some 500 }).1) ∧
      ((EmailLimits.getUsage now { t with emailMonthlyLimit := l }).2 =
        { (EmailLimits.getUsage now { t with emailMonthlyLimit := some 500 }).2 with
            emailMonthlyLimit := l }) ∧
      ((EmailLimits.trackEmailSend input { t with emailMonthlyLimit := l }).1 =
        (EmailLimits.trackEmailSend input { t with emailMonthlyLimit := some 500 }).1) ∧
      ((EmailLimits.trackEmailSend input { t with emailMonthlyLimit := l }).2.1 =
        { (EmailLimits.trackEmailSend input
            { t with emailMonthlyLimit := some 500 }).2.1 with
            emailMonthlyLimit := l }) ∧
      ((EmailLimits.trackEmailSend input { t with emailMonthlyLimit := l }).2.2 =
        (EmailLimits.trackEmailSend input { t with emailMonthlyLimit := some 500 }).2.2) ∧
      ((EmailOverageBilling.generateMonthlyInvoice
          ⟨[{ t with emailMonthlyLimit := l }], invs⟩ gi).map
            (fun r => (r.1, r.2.invoices)) =
        (EmailOverageBilling.generateMonthlyInvoice
          ⟨[{ t with emailMonthlyLimit := some 500 }], invs⟩ gi).map
            (fun r => (r.1, r.2.invoices)))) ∧
    (∀ (t : Tenant) (now : Date') (input : EmailLimits.TrackInput)
      (invs : List Invoice) (gi : EmailOverageBilling.GenInput),
      ((EmailLimits.getUsage now { t with emailOverageRate := none }).1 =
        (EmailLimits.getUsage now { t with emailOverageRate := some (1/10) }).1) ∧
      ((EmailLimits.getUsage now { t with emailOverageRate := none }).2 =
        { (EmailLimits.getUsage now
            { t with emailOverageRate := some (1/10) }).2 with
            emailOverageRate := none }) ∧
      ((EmailLimits.trackEmailSend input { t with emailOverageRate := none }).1 =
        (EmailLimits.trackEmailSend input
          { t with emailOverageRate := some (1/10) }).1) ∧
      ((EmailLimits.trackEmailSend input { t with emailOverageRate := none }).2.1 =
        { (EmailLimits.trackEmailSend input
            { t with emailOverageRate := some (1/10) }).2.1 with
            emailOverageRate := none }) ∧
      ((EmailLimits.trackEmailSend input { t with emailOverageRate := none }).2.2 =
        (EmailLimits.trackEmailSend input
          { t with emailOverageRate := some (1/10) }).2.2) ∧
      ((EmailOverageBilling.generateMonthlyInvoice
          ⟨[{ t with emailOverageRate := none }], invs⟩ gi).map
            (fun r => (r.1, r.2.invoices)) =
        (EmailOverageBilling.generateMonthlyInvoice
          ⟨[{ t with emailOverageRate := some (1/10) }], invs⟩ gi).map
            (fun r => (r.1, r.2.invoices)))) :=
  ⟨falsyLimit_default_aux, falsyRate_default_aux⟩

/-- If a tenant row matches the requested id and some stored invoice matches
the exact (tenant, period start, period end) tuple, `generateMonthlyInvoice`
throws `CONFLICT`. -/
theorem generateMonthlyInvoice_conflict_of
    (st : EmailOverageBilling.BillingState) (i : EmailOverageBilling.GenInput)
    (htnt : (st.tenants.find? (fun t => decide (t.id = i.tenantId))).isSome)
    (hinv : ∃ inv ∈ st.invoices, inv.tenantId = i.tenantId ∧
      inv.billingPeriodStart = i.billingPeriodStart ∧
      inv.billingPeriodEnd = i.billingPeriodEnd) :
    EmailOverageBilling.generateMonthlyInvoice st i = .error .conflict := by
  obtain ⟨tnt0, hT⟩ := Option.isSome_iff_exists.mp htnt
  obtain ⟨inv, hmem, h1, h2, h3⟩ := hinv
  have hI : (st.invoices.find? (fun inv =>
      decide (inv.tenantId = i.tenantId ∧
        inv.billingPeriodStart = i.billingPeriodStart ∧
        inv.billingPeriodEnd = i.billingPeriodEnd))).isSome :=
    List.find?_isSome.mpr ⟨inv, hmem, by simp [h1, h2, h3]⟩
  obtain ⟨inv0, hI'⟩ := Option.isSome_iff_exists.mp hI
  unfold EmailOverageBilling.generateMonthlyInvoice
  rw [hT, hI']

/-- C5: if an invoice already exists for the exact (tenant, period start,
period end) tuple, `generateMonthlyInvoice` fails with `CONFLICT` and leaves
the invoice store unchanged; in particular after one successful call, a second
call with the same input fails with `CONFLICT` and changes nothing. -/
theorem c5_generateInvoice_idempotency_conflict :
    ∀ (st : EmailOverageBilling.BillingState) (i : EmailOverageBilling.GenInput),
      ((∃ tnt ∈ st.tenants, tnt.id = i.tenantId) →
        (∃ inv ∈ st.invoices, inv.tenantId = i.tenantId ∧
          inv.billingPeriodStart = i.billingPeriodStart ∧
          inv.billingPeriodEnd = i.billingPeriodEnd) →
        EmailOverageBilling.generateMonthlyInvoice st i = .error .conflict ∧
        EmailOverageBilling.generateMonthlyInvoiceRun st i = st) ∧
      (∀ (r : EmailOverageBilling.GenResult) (st' : EmailOverageBilling.BillingState),
        EmailOverageBilling.generateMonthlyInvoice st i = .ok (r, st') →
        EmailOverageBilling.generateMonthlyInvoice st' i = .error .conflict ∧
        EmailOverageBilling.generateMonthlyInvoiceRun st' i = st') := by
  intro st i
  constructor
  · intro htnt hinv
    have htnt' : (st.tenants.find? (fun t => decide (t.id = i.tenantId))).isSome := by
      obtain ⟨tnt, hmem, hid⟩ := htnt
      exact List.find?_isSome.mpr ⟨tnt, hmem, by simp [hid]⟩
    have hc := generateMonthlyInvoice_conflict_of st i htnt' hinv
    exact ⟨hc, by simp [EmailOverageBilling.generateMonthlyInvoiceRun, hc]⟩
  · intro r st' h
    unfold EmailOverageBilling.generateMonthlyInvoice at h
    split at h
    next hT => exact Except.noConfusion h
    next tnt hT =>
      split at h
      next inv0 hI => exact Except.noConfusion h
      next hI =>
        dsimp only [] at h
        split at h
        next hov => exact Except.noConfusion h
        next hov =>
          rw [Except.ok.injEq, Prod.mk.injEq] at h
          obtain ⟨hr, hst'⟩ := h
          have hTnt' : st'.tenants = st.tenants := by rw [← hst']
          have hInv' : ∃ inv ∈ st'.invoices, inv.tenantId = i.tenantId ∧
              inv.billingPeriodStart = i.billingPeriodStart ∧
              inv.billingPeriodEnd = i.billingPeriodEnd := by
            rw [← hst']
            exact ⟨_, List.mem_append_right _ (List.mem_singleton.mpr rfl),
              rfl, rfl, rfl⟩
          have htnt'2 : (st'.tenants.find?
              (fun t => decide (t.id = i.tenantId))).isSome := by
            rw [hTnt', hT]
            rfl
          have hc := generateMonthlyInvoice_conflict_of st' i htnt'2 hInv'
          exact ⟨hc, by simp [EmailOverageBilling.generateMonthlyInvoiceRun, hc]⟩

/-- Exact two-decimal values are closed under addition. -/
theorem TwoDec.add {a b : ℚ} (ha : TwoDec a) (hb : TwoDec b) : TwoDec (a + b) := by
  obtain ⟨k, rfl⟩ := ha
  obtain ⟨l, rfl⟩ := hb
  exact ⟨k + l, by push_cast; ring⟩

/-- Concrete duplicate invoice used by the C5 witness: it occupies the
October 2025 period for tenant `tenant-1`. -/
def c5Invoice : Invoice :=
  { id := 0
    tenantId := "tenant-1"
    invoiceNumber := "INV-202510-TENANT-1"
    billingPeriodStart := ⟨2025, 10, 1⟩
    billingPeriodEnd := ⟨2025, 10, 31⟩
    emailsOverLimit := 120
    overageRate := 1/10
    subtotal := 12
    vatRate := 25
    vatAmount := 3
    totalAmount := 15
    currency := "NOK"
    status := .pending
    dueDate := ⟨2025, 11, 30⟩
    stripeInvoiceId := none
    stripePaymentIntentId := none
    paidAt := none }

/-- Witness for C5: with an invoice already stored for tenant `tenant-1` and
the October 2025 period, `generateMonthlyInvoice` for that exact tuple returns
`CONFLICT` and the store is unchanged. -/
theorem c5_witness :
    EmailOverageBilling.generateMonthlyInvoice ⟨[c6Tenant], [c5Invoice]⟩
        ⟨"tenant-1", ⟨2025, 10, 1⟩, ⟨2025, 10, 31⟩⟩ =
      .error .conflict ∧
    EmailOverageBilling.generateMonthlyInvoiceRun ⟨[c6Tenant], [c5Invoice]⟩
        ⟨"tenant-1", ⟨2025, 10, 1⟩, ⟨2025, 10, 31⟩⟩ =
      ⟨[c6Tenant], [c5Invoice]⟩ :=
  (c5_generateInvoice_idempotency_conflict ⟨[c6Tenant], [c5Invoice]⟩
      ⟨"tenant-1", ⟨2025, 10, 1⟩, ⟨2025, 10, 31⟩⟩).1
    ⟨c6Tenant, List.mem_singleton.mpr rfl, rfl⟩
    ⟨c5Invoice, List.mem_singleton.mpr rfl, rfl, rfl, rfl⟩

/-- C7: an invoice created by `generateMonthlyInvoice` (for a tenant whose
stored overage rate and tax rate are exact two-decimal values, as the
`decimal(_,2)` columns guarantee) stores
`subtotal = emailsOverLimit * overageRate` exactly,
`vatAmount = subtotal * vatRate / 100` at two-decimal precision,
`totalAmount = subtotal + vatAmount` exactly, and every stored amount is an
exact two-decimal value. -/
theorem c7_invoice_arithmetic :
    ∀ (t : Tenant) (invs : List Invoice) (i : EmailOverageBilling.GenInput)
      (r : EmailOverageBilling.GenResult) (st' : EmailOverageBilling.BillingState)
      (m v : ℕ),
      t.emailOverageRate.getD (1/10) = (m : ℚ)/100 →
      t.vatRate.getD 25 = (v : ℚ)/100 →
      EmailOverageBilling.generateMonthlyInvoice ⟨[t], invs⟩ i = .ok (r, st') →
      ∃ inv : Invoice, st'.invoices = invs ++ [inv] ∧
        inv.emailsOverLimit = (max 0 ((t.emailsSentThisMonth.getD 0 : ℤ)
          - (jsOrNat t.emailMonthlyLimit 500 : ℤ))).toNat ∧
        inv.overageRate = t.emailOverageRate.getD (1/10) ∧
        inv.vatRate = t.vatRate.getD 25 ∧
        inv.subtotal = (inv.emailsOverLimit : ℚ) * inv.overageRate ∧
        inv.vatAmount = toFixed2 (inv.subtotal * inv.vatRate / 100) ∧
        inv.totalAmount = inv.subtotal + inv.vatAmount ∧
        TwoDec inv.subtotal ∧ TwoDec inv.vatAmount ∧ TwoDec inv.totalAmount := by
  intro t invs i r st' m v hm hv h
  unfold EmailOverageBilling.generateMonthlyInvoice at h
  split at h
  next hT => exact Except.noConfusion h
  next tnt hT =>
    rw [List.find?_singleton] at hT
    have htnt : tnt = t := by
      by_cases hp : (fun tn => decide (tn.id = i.tenantId)) t = true
      · rw [if_pos hp] at hT
        exact (Option.some.injEq _ _ ▸ hT).symm
      · rw [if_neg hp] at hT
        exact Option.noConfusion hT
    subst htnt
    split at h
    next inv0 hI => exact Except.noConfusion h
    next hI =>
      dsimp only [] at h
      split at h
      next hov => exact Except.noConfusion h
      next hov =>
        rw [Except.ok.injEq, Prod.mk.injEq] at h
        obtain ⟨-, hst'⟩ := h
        refine ⟨_, by rw [← hst'], rfl, ?_, ?_, ?_, ?_, ?_, ?_, ?_, ?_⟩ <;>
          dsimp only []
        all_goals
          have hOR : TwoDec (((max 0 ((tnt.emailsSentThisMonth.getD 0 : ℤ)
              - (jsOrNat tnt.emailMonthlyLimit 500 : ℤ))).toNat : ℚ)
                * tnt.emailOverageRate.getD (1/10)) := by
            refine ⟨(max 0 ((tnt.emailsSentThisMonth.getD 0 : ℤ)
              - (jsOrNat tnt.emailMonthlyLimit 500 : ℤ))).toNat * m, ?_⟩
            rw [hm]
            push_cast
            ring
        all_goals
          have hORf := toFixed2_eq_self hOR
        all_goals
          have hVf : toFixed2 (tnt.vatRate.getD 25) = tnt.vatRate.getD 25 :=
            toFixed2_eq_self ⟨v, hv⟩
        · exact toFixed2_eq_self ⟨m, hm⟩
        · exact hVf
        · rw [hORf, toFixed2_eq_self ⟨m, hm⟩, hm]
        · rw [hORf, hVf]
        · rw [toFixed2_twoDec_add _ hOR, hORf]
        · rw [hORf]
          exact hOR
        · exact twoDec_toFixed2 _
        · rw [toFixed2_twoDec_add _ hOR]
          exact hOR.add (twoDec_toFixed2 _)

/-- Tenant used by the C7 witness: limit 500, 620 emails sent, overage rate
0.10, VAT rate 25. -/
def c7Tenant : Tenant := { c6Tenant with emailsSentThisMonth := some 620 }

/-- Witness for C7: with limit 500, used 620, rate 0.10 and VAT 25 the
generated invoice has 120 units over the limit, subtotal 12.00, tax 3.00 and
total 15.00, and the stored amounts satisfy the claimed equations. -/
theorem c7_witness :
    ∃ (r : EmailOverageBilling.GenResult) (st' : EmailOverageBilling.BillingState)
      (inv : Invoice),
      EmailOverageBilling.generateMonthlyInvoice ⟨[c7Tenant], []⟩
        ⟨"tenant-1", ⟨2025, 10, 1⟩, ⟨2025, 10, 31⟩⟩ = .ok (r, st') ∧
      st'.invoices = [] ++ [inv] ∧
      inv.emailsOverLimit = 120 ∧
      inv.subtotal = (inv.emailsOverLimit : ℚ) * inv.overageRate ∧
      inv.vatAmount = toFixed2 (inv.subtotal * inv.vatRate / 100) ∧
      inv.totalAmount = inv.subtotal + inv.vatAmount ∧
      inv.subtotal = 12 ∧ inv.vatAmount = 3 ∧ inv.totalAmount = 15 := by
  obtain ⟨r, st', hok⟩ :
      ∃ r st', EmailOverageBilling.generateMonthlyInvoice ⟨[c7Tenant], []⟩
        ⟨"tenant-1", ⟨2025, 10, 1⟩, ⟨2025, 10, 31⟩⟩ = .ok (r, st') := ⟨_, _, rfl⟩
  have hm : c7Tenant.emailOverageRate.getD (1/10) = ((10 : ℕ) : ℚ)/100 := by
    norm_num [c7Tenant, c6Tenant]
  have hv : c7Tenant.vatRate.getD 25 = ((2500 : ℕ) : ℚ)/100 := by
    norm_num [c7Tenant, c6Tenant]
  obtain ⟨inv, h1, h2, hrate, hvrate, h3, h4, h5, -, -, -⟩ :=
    c7_invoice_arithmetic c7Tenant [] ⟨"tenant-1", ⟨2025, 10, 1⟩, ⟨2025, 10, 31⟩⟩
      r st' 10 2500 hm hv hok
  have hover : inv.emailsOverLimit = 120 := by
    rw [h2]
    norm_num [c7Tenant, c6Tenant, jsOrNat]
    rfl
  have hsub : inv.subtotal = 12 := by
    rw [h3, hover, hrate, hm]
    norm_num
  have hvat : inv.vatAmount = 3 := by
    rw [h4, hsub, hvrate, hv]
    norm_num
    exact toFixed2_eq_self ⟨300, by norm_num⟩
  have htot : inv.totalAmount = 15 := by
    rw [h5, hsub, hvat]
    norm_num
  exact ⟨r, st', inv, hok, h1, hover, h3, h4, h5, hsub, hvat, htot⟩

/-- `applyWStatus` never changes the remote (Stripe) invoice id column. -/
theorem applyWStatus_stripeInvoiceId (i : Nat) (st : InvoiceStatus)
    (p : Option Nat) (r : Invoice) :
    (EmailOverageBilling.applyWStatus i st p r).stripeInvoiceId = r.stripeInvoiceId := by
  unfold EmailOverageBilling.applyWStatus
  split <;> rfl

/-- `applyWStatus` never changes the primary key. -/
theorem applyWStatus_id (i : Nat) (st : InvoiceStatus) (p : Option Nat) (r : Invoice) :
    (EmailOverageBilling.applyWStatus i st p r).id = r.id := by
  unfold EmailOverageBilling.applyWStatus
  split <;> rfl

/-- `applyWStatus` never changes the owning tenant. -/
theorem applyWStatus_tenantId (i : Nat) (st : InvoiceStatus) (p : Option Nat) (r : Invoice) :
    (EmailOverageBilling.applyWStatus i st p r).tenantId = r.tenantId := by
  unfold EmailOverageBilling.applyWStatus
  split <;> rfl

/-- Applying the same status/paidAt write twice equals applying it once. -/
theorem applyWStatus_idem (i : Nat) (st : InvoiceStatus) (p : Option Nat) (r : Invoice) :
    EmailOverageBilling.applyWStatus i st p (EmailOverageBilling.applyWStatus i st p r) =
      EmailOverageBilling.applyWStatus i st p r := by
  unfold EmailOverageBilling.applyWStatus
  by_cases h : r.id = i
  · simp [h]
  · simp [h]

/-- `resetCharge` never changes the tenant id. -/
theorem resetCharge_id (tid : String) (t : Tenant) :
    (EmailOverageBilling.resetCharge tid t).id = t.id := by
  unfold EmailOverageBilling.resetCharge
  split <;> rfl

/-- Resetting the accrued charge twice equals resetting it once. -/
theorem resetCharge_idem (tid : String) (t : Tenant) :
    EmailOverageBilling.resetCharge tid (EmailOverageBilling.resetCharge tid t) =
      EmailOverageBilling.resetCharge tid t := by
  unfold EmailOverageBilling.resetCharge
  by_cases h : t.id = tid
  · simp [h]
  · simp [h]

/-- Searching by remote invoice id commutes with the status write, since the
write never touches the searched column. -/
theorem find?_map_applyWStatus (l : List Invoice) (i : Nat) (st : InvoiceStatus)
    (p : Option Nat) (sid : String) :
    (l.map (EmailOverageBilling.applyWStatus i st p)).find?
        (fun x => decide (x.stripeInvoiceId = some sid)) =
      (l.find? (fun x => decide (x.stripeInvoiceId = some sid))).map
        (EmailOverageBilling.applyWStatus i st p) := by
  have hp : ((fun x => decide (x.stripeInvoiceId = some sid)) ∘
      EmailOverageBilling.applyWStatus i st p) =
      (fun x => decide (x.stripeInvoiceId = some sid)) := by
    funext x
    simp [Function.comp, applyWStatus_stripeInvoiceId]
  rw [List.find?_map, hp]

/-- C8 counterexample: a payment event whose remote invoice id matches no
local invoice makes the reconciliation mutation `handleStripeWebhook` raise a
`NOT_FOUND` error to its caller, contradicting the claim that the event is
acknowledged without propagating an error. -/
theorem c8_counterexample :
    EmailOverageBilling.handleStripeWebhook ⟨[], []⟩
      { stripeInvoiceId := "in_unknown", status := .paid, paidAt := none } =
      .error .notFound := rfl

/-- C8 amended: on an unmatched remote invoice id the Stripe event handlers
`handleInvoicePaymentSucceeded` and `handleInvoicePaymentFailed` log, return
`null` and modify no state without raising; the admin reconciliation mutation
`handleStripeWebhook`, however, raises `NOT_FOUND` to its caller (while also
modifying no state). -/
theorem c8_unmatched_event_behaviour :
    ∀ (db : StripeWebhook.WebhookDb) (ev : StripeWebhook.StripeInvoiceEvent)
      (st : EmailOverageBilling.BillingState) (inp : EmailOverageBilling.WebhookInput),
      db.emailInvoices.find? (fun r => decide (r.stripeInvoiceId = some ev.id)) = none →
      db.smsInvoices.find? (fun r => decide (r.stripeInvoiceId = some ev.id)) = none →
      st.invoices.find?
        (fun r => decide (r.stripeInvoiceId = some inp.stripeInvoiceId)) = none →
      StripeWebhook.handleInvoicePaymentSucceeded db ev = (none, db) ∧
      StripeWebhook.handleInvoicePaymentFailed db ev = (none, db) ∧
      EmailOverageBilling.handleStripeWebhook st inp = .error .notFound := by
  intro db ev st inp h1 h2 h3
  refine ⟨?_, ?_, ?_⟩
  · unfold StripeWebhook.handleInvoicePaymentSucceeded
    rw [h1, h2]
  · unfold StripeWebhook.handleInvoicePaymentFailed
    rw [h1, h2]
  · unfold EmailOverageBilling.handleStripeWebhook
    rw [h3]

/-- Witness for the amended C8 at the empty store. -/
theorem c8_witness :
    StripeWebhook.handleInvoicePaymentSucceeded ⟨[], []⟩
      { id := "in_x", paidAtSec := 1700000000, paymentIntent := none } =
      (none, ⟨[], []⟩) ∧
    StripeWebhook.handleInvoicePaymentFailed ⟨[], []⟩
      { id := "in_x", paidAtSec := 1700000000, paymentIntent := none } =
      (none, ⟨[], []⟩) ∧
    EmailOverageBilling.handleStripeWebhook ⟨[], []⟩
      { stripeInvoiceId := "in_x", status := .failed, paidAt := none } =
      .error .notFound :=
  c8_unmatched_event_behaviour ⟨[], []⟩
    { id := "in_x", paidAtSec := 1700000000, paymentIntent := none } ⟨[], []⟩
    { stripeInvoiceId := "in_x", status := .failed, paidAt := none } rfl rfl rfl

/-- Invoice used by the C2 counterexample: already `paid`, mirrored remotely
as `in_1`. -/
def c2Invoice : Invoice :=
  { c5Invoice with status := .paid, stripeInvoiceId := some "in_1" }

/-- Store holding the already-paid invoice of the C2 counterexample. -/
def c2State : EmailOverageBilling.BillingState := ⟨[c6Tenant], [c2Invoice]⟩

/-- C2 counterexample: an invoice currently in `paid` state transitions to
`failed` when a `failed` payment event arrives — the reconciliation mutation
imposes no transition restrictions, contradicting the claim that `paid` is
terminal. -/
theorem c2_counterexample :
    c2State.invoices.map Invoice.status = [.paid] ∧
    ∃ st', EmailOverageBilling.handleStripeWebhook c2State
        { stripeInvoiceId := "in_1", status := .failed, paidAt := none } =
        .ok ({ success := true }, st') ∧
      st'.invoices.map Invoice.status = [.failed] :=
  ⟨rfl, _, rfl, rfl⟩

/-- C2 amended: whenever a local invoice matches the event's remote invoice
id, `handleStripeWebhook` overwrites its status with the event's status —
whatever the previous status was; no transition is forbidden (in particular
`paid → failed` happens on a `failed` event). -/
theorem c2_status_overwritten_unconditionally :
    ∀ (st : EmailOverageBilling.BillingState) (inp : EmailOverageBilling.WebhookInput)
      (r : EmailOverageBilling.WResult) (st' : EmailOverageBilling.BillingState),
      EmailOverageBilling.handleStripeWebhook st inp = .ok (r, st') →
      (st'.invoices.find?
          (fun x => decide (x.stripeInvoiceId = some inp.stripeInvoiceId))).map
        Invoice.status = some (EmailOverageBilling.wstatusToInvoice inp.status) := by
  intro st inp r st' h
  unfold EmailOverageBilling.handleStripeWebhook at h
  split at h
  next hfind => exact Except.noConfusion h
  next invoice hfind =>
    dsimp only [] at h
    rw [Except.ok.injEq, Prod.mk.injEq] at h
    obtain ⟨-, hst'⟩ := h
    rw [← hst']
    dsimp only []
    rw [find?_map_applyWStatus, hfind]
    unfold EmailOverageBilling.applyWStatus
    simp

/-- Witness for the amended C2: a pending invoice matched by a `failed` event
ends up `failed`. -/
theorem c2_witness :
    ∃ (r : EmailOverageBilling.WResult) (st' : EmailOverageBilling.BillingState),
      EmailOverageBilling.handleStripeWebhook
        ⟨[c6Tenant], [{ c5Invoice with stripeInvoiceId := some "in_2" }]⟩
        { stripeInvoiceId := "in_2", status := .failed, paidAt := none } =
        .ok (r, st') ∧
      (st'.invoices.find?
          (fun x => decide (x.stripeInvoiceId = some "in_2"))).map
        Invoice.status = some (EmailOverageBilling.wstatusToInvoice .failed) := by
  obtain ⟨r, st', hok⟩ :
      ∃ r st', EmailOverageBilling.handleStripeWebhook
        ⟨[c6Tenant], [{ c5Invoice with stripeInvoiceId := some "in_2" }]⟩
        { stripeInvoiceId := "in_2", status := .failed, paidAt := none } =
        .ok (r, st') := ⟨_, _, rfl⟩
  exact ⟨r, st', hok, c2_status_overwritten_unconditionally _ _ _ _ hok⟩

/-- Tenant with a non-zero accrued overage charge, used by the C1
counterexample. -/
def c1Tenant : Tenant := { c6Tenant with emailOverageCharge := some 5 }

/-- Invoice already in `paid` state, mirrored remotely as `in_9`, used by the
C1 counterexample. -/
def c1Invoice : Invoice :=
  { c5Invoice with status := .paid, stripeInvoiceId := some "in_9" }

/-- Store for the C1 counterexample. -/
def c1State : EmailOverageBilling.BillingState := ⟨[c1Tenant], [c1Invoice]⟩

/-- C1 counterexample: the matched invoice is `paid` — not `pending` — yet
processing a `paid` event is not a no-op: the handler succeeds and resets the
tenant's accrued overage charge from 5.00 to 0.00, so delivering the event
again while any charge has accrued re-resets state. -/
theorem c1_counterexample :
    c1State.invoices.map Invoice.status = [.paid] ∧
    c1State.tenants.map Tenant.emailOverageCharge = [some 5] ∧
    (∃ st', EmailOverageBilling.handleStripeWebhook c1State
        { stripeInvoiceId := "in_9", status := .paid, paidAt := none } =
        .ok ({ success := true }, st') ∧
      st'.tenants.map Tenant.emailOverageCharge = [some 0]) :=
  ⟨rfl, rfl, _, rfl, rfl⟩

/-- C1 amended: the reconciliation mutation performs no `pending` check: every
`paid` delivery that matches an invoice succeeds, (re)sets the invoice's
status to `paid` and resets the owning tenant's accrued overage charge to 0;
a second delivery of the same event is not an error, and merely re-executes
the same two writes (so it converges to the same state rather than being
skipped). -/
theorem c1_paid_event_applied_unconditionally :
    ∀ (st : EmailOverageBilling.BillingState) (inp : EmailOverageBilling.WebhookInput)
      (r : EmailOverageBilling.WResult) (st' : EmailOverageBilling.BillingState),
      inp.status = .paid →
      EmailOverageBilling.handleStripeWebhook st inp = .ok (r, st') →
      ((st'.invoices.find?
          (fun x => decide (x.stripeInvoiceId = some inp.stripeInvoiceId))).map
        Invoice.status = some .paid) ∧
      (∀ tnt ∈ st'.tenants,
        (st.invoices.find?
            (fun x => decide (x.stripeInvoiceId = some inp.stripeInvoiceId))).map
          Invoice.tenantId = some tnt.id →
        tnt.emailOverageCharge = some 0) ∧
      EmailOverageBilling.handleStripeWebhook st' inp = .ok (r, st') := by
  intro st inp r r2 hpaid h
  unfold EmailOverageBilling.handleStripeWebhook at h
  split at h
  next hfind => exact Except.noConfusion h
  next invoice hfind =>
    dsimp only [] at h
    rw [Except.ok.injEq, Prod.mk.injEq] at h
    obtain ⟨hr, hst'⟩ := h
    have hinv : r2.invoices = List.map (EmailOverageBilling.applyWStatus invoice.id
        (EmailOverageBilling.wstatusToInvoice inp.status) inp.paidAt) st.invoices := by
      rw [← hst']
    have hten : r2.tenants =
        List.map (EmailOverageBilling.resetCharge invoice.tenantId) st.tenants := by
      rw [← hst']
      dsimp only []
      rw [if_pos hpaid]
    have hfind2 : r2.invoices.find?
        (fun x => decide (x.stripeInvoiceId = some inp.stripeInvoiceId)) =
        some (EmailOverageBilling.applyWStatus invoice.id
          (EmailOverageBilling.wstatusToInvoice inp.status) inp.paidAt invoice) := by
      rw [hinv, find?_map_applyWStatus, hfind, Option.map_some']
    refine ⟨?_, ?_, ?_⟩
    · rw [hfind2, Option.map_some']
      unfold EmailOverageBilling.applyWStatus
      rw [if_pos rfl, hpaid]
      rfl
    · intro tnt hmem htid
      rw [hten] at hmem
      obtain ⟨t0, ht0mem, rfl⟩ := List.mem_map.mp hmem
      rw [hfind, Option.map_some', resetCharge_id] at htid
      have ht : invoice.tenantId = t0.id := Option.some.injEq _ _ ▸ htid
      unfold EmailOverageBilling.resetCharge
      rw [if_pos ht.symm]
    · unfold EmailOverageBilling.handleStripeWebhook
      rw [hfind2]
      dsimp only []
      rw [applyWStatus_tenantId, applyWStatus_id, if_pos hpaid]
      have hmten : List.map (EmailOverageBilling.resetCharge invoice.tenantId)
          r2.tenants = r2.tenants := by
        rw [hten, List.map_map]
        have hgg : (EmailOverageBilling.resetCharge invoice.tenantId ∘
            EmailOverageBilling.resetCharge invoice.tenantId) =
            EmailOverageBilling.resetCharge invoice.tenantId :=
          funext (resetCharge_idem invoice.tenantId)
        rw [hgg]
      have hminv : List.map (EmailOverageBilling.applyWStatus invoice.id
          (EmailOverageBilling.wstatusToInvoice inp.status) inp.paidAt)
          r2.invoices = r2.invoices := by
        rw [hinv, List.map_map]
        have hgg : (EmailOverageBilling.applyWStatus invoice.id
            (EmailOverageBilling.wstatusToInvoice inp.status) inp.paidAt ∘
            EmailOverageBilling.applyWStatus invoice.id
            (EmailOverageBilling.wstatusToInvoice inp.status) inp.paidAt) =
            EmailOverageBilling.applyWStatus invoice.id
            (EmailOverageBilling.wstatusToInvoice inp.status) inp.paidAt :=
          funext (applyWStatus_idem invoice.id _ inp.paidAt)
        rw [hgg]
      rw [hmten, hminv, ← hr]

/-- Witness for the amended C1: a pending invoice matched by a `paid` event is
marked paid, the tenant's charge is reset, and re-delivering the same event
returns the same success and state. -/
theorem c1_witness :
    ∃ (r : EmailOverageBilling.WResult) (st' : EmailOverageBilling.BillingState),
      EmailOverageBilling.handleStripeWebhook
        ⟨[c1Tenant], [{ c5Invoice with stripeInvoiceId := some "in_3" }]⟩
        { stripeInvoiceId := "in_3", status := .paid, paidAt := some 1700000000000 } =
        .ok (r, st') ∧
      ((st'.invoices.find?
          (fun x => decide (x.stripeInvoiceId = some "in_3"))).map
        Invoice.status = some .paid) ∧
      EmailOverageBilling.handleStripeWebhook st'
        { stripeInvoiceId := "in_3", status := .paid, paidAt := some 1700000000000 } =
        .ok (r, st') := by
  obtain ⟨r, st', hok⟩ :
      ∃ r st', EmailOverageBilling.handleStripeWebhook
        ⟨[c1Tenant], [{ c5Invoice with stripeInvoiceId := some "in_3" }]⟩
        { stripeInvoiceId := "in_3", status := .paid, paidAt := some 1700000000000 } =
        .ok (r, st') := ⟨_, _, rfl⟩
  have h := c1_paid_event_applied_unconditionally _ _ _ _ rfl hok
  exact ⟨r, st', hok, h.1, h.2.2⟩

/-- Tenant with zero prior usage for the C3 counterexample. -/
def c3Tenant : Tenant := { c6Tenant with emailsSentThisMonth := some 0 }

/-- C3 counterexample: two concurrent `trackEmailSend` calls for the same
tenant, interleaved read-read-write-write, both complete, yet the stored
counter ends at 1 — not prior + 2.  The source's `findFirst` followed by a
separate `update` computed from the fetched row is not an atomic increment, so
one increment is lost. -/
theorem c3_counterexample :
    (EmailLimits.runTrack [true, false, true, false]
      ⟨.ready, .ready, c3Tenant⟩).a = .done ∧
    (EmailLimits.runTrack [true, false, true, false]
      ⟨.ready, .ready, c3Tenant⟩).b = .done ∧
    (EmailLimits.runTrack [true, false, true, false]
      ⟨.ready, .ready, c3Tenant⟩).db.emailsSentThisMonth = some 1 ∧
    c3Tenant.emailsSentThisMonth = some 0 ∧
    (1 : Nat) ≠ 0 + 2 := by
  refine ⟨rfl, rfl, rfl, rfl, by norm_num⟩

/-- C3 amended: `trackEmailSend` is correct when serialised — `n` sequential
calls add exactly `n` to the tenant's counter, and the serialised schedule of
two whole calls adds 2 — but the call is a non-atomic read-then-write, so a
concurrent interleaving can lose increments (see the counterexample). -/
theorem c3_sequential_increments_add :
    (∀ (n : Nat) (t : Tenant),
      (EmailLimits.trackCallIter n t).emailsSentThisMonth.getD 0 =
        t.emailsSentThisMonth.getD 0 + n) ∧
    (∀ t : Tenant,
      (EmailLimits.runTrack [true, true, false, false] ⟨.ready, .ready, t⟩).a = .done ∧
      (EmailLimits.runTrack [true, true, false, false] ⟨.ready, .ready, t⟩).b = .done ∧
      (EmailLimits.runTrack [true, true, false, false]
        ⟨.ready, .ready, t⟩).db.emailsSentThisMonth.getD 0 =
        t.emailsSentThisMonth.getD 0 + 2) := by
  constructor
  · intro n
    induction n with
    | zero => intro t; rfl
    | succ k ih =>
      intro t
      have hstep : (EmailLimits.trackCall t).emailsSentThisMonth.getD 0 =
          t.emailsSentThisMonth.getD 0 + 1 := rfl
      calc (EmailLimits.trackCallIter (k + 1) t).emailsSentThisMonth.getD 0
          = (EmailLimits.trackCallIter k (EmailLimits.trackCall t)).emailsSentThisMonth.getD 0 := rfl
        _ = (EmailLimits.trackCall t).emailsSentThisMonth.getD 0 + k := ih _
        _ = t.emailsSentThisMonth.getD 0 + 1 + k := by rw [hstep]
        _ = t.emailsSentThisMonth.getD 0 + (k + 1) := by omega
  · intro t
    exact ⟨rfl, rfl, rfl⟩

/-- Witness for C9: with no configured limit at all, `getUsage` reports the
default limit 500 and `trackEmailSend` behaves exactly as for an explicitly
configured limit of 500; and with no configured overage rate, both behave
exactly as for an explicitly configured rate of 0.10, which `getUsage`
reports as the effective `overageRate`. -/
theorem c9_witness :
    ((EmailLimits.getUsage ⟨2025, 10, 15⟩
        { c6Tenant with emailMonthlyLimit := none }).1 =
      (EmailLimits.getUsage ⟨2025, 10, 15⟩
        { c6Tenant with emailMonthlyLimit := some 500 }).1) ∧
    ((EmailLimits.trackEmailSend ⟨"welcome", "a@b.c", none⟩
        { c6Tenant with emailMonthlyLimit := none }).1 =
      (EmailLimits.trackEmailSend ⟨"welcome", "a@b.c", none⟩
        { c6Tenant with emailMonthlyLimit := some 500 }).1) ∧
    ((EmailLimits.getUsage ⟨2025, 10, 15⟩
        { c6Tenant with emailMonthlyLimit := none }).1.limit = 500) ∧
    ((EmailLimits.getUsage ⟨2025, 10, 15⟩
        { c6Tenant with emailOverageRate := none }).1 =
      (EmailLimits.getUsage ⟨2025, 10, 15⟩
        { c6Tenant with emailOverageRate := some (1/10) }).1) ∧
    ((EmailLimits.trackEmailSend ⟨"welcome", "a@b.c", none⟩
        { c6Tenant with emailOverageRate := none }).1 =
      (EmailLimits.trackEmailSend ⟨"welcome", "a@b.c", none⟩
        { c6Tenant with emailOverageRate := some (1/10) }).1) ∧
    ((EmailLimits.getUsage ⟨2025, 10, 15⟩
        { c6Tenant with emailOverageRate := none }).1.overageRate = 1/10) := by
  have hl := c9_falsy_config_uses_defaults.1 none (Or.inl rfl) c6Tenant
    ⟨2025, 10, 15⟩ ⟨"welcome", "a@b.c", none⟩ []
    ⟨"tenant-1", ⟨2025, 10, 1⟩, ⟨2025, 10, 31⟩⟩
  have hr := c9_falsy_config_uses_defaults.2 c6Tenant
    ⟨2025, 10, 15⟩ ⟨"welcome", "a@b.c", none⟩ []
    ⟨"tenant-1", ⟨2025, 10, 1⟩, ⟨2025, 10, 31⟩⟩
  refine ⟨hl.1, hl.2.2.1, ?_, hr.1, hr.2.2.1, ?_⟩
  · rw [hl.1]
    rfl
  · rw [hr.1]
    rfl

/-- Witness for C10: a tenant whose stored period start (September 2025) is a
month before the wall clock (October 2025) still has its stale counter
incremented from 42 to 43 and its period start left at September. -/
theorem c10_witness :
    ((⟨2025, 9, 1⟩ : Date').year * 12 + (⟨2025, 9, 1⟩ : Date').month <
      (⟨2025, 10, 15⟩ : Date').year * 12 + (⟨2025, 10, 15⟩ : Date').month) ∧
    (EmailLimits.trackEmailSend ⟨"welcome", "a@b.c", none⟩
      { c6Tenant with emailsSentThisMonth := some 42,
                      currentMonthStart := some ⟨2025, 9, 1⟩ }).2.1.currentMonthStart =
      some ⟨2025, 9, 1⟩ ∧
    (EmailLimits.trackEmailSend ⟨"welcome", "a@b.c", none⟩
      { c6Tenant with emailsSentThisMonth := some 42,
                      currentMonthStart := some ⟨2025, 9, 1⟩ }).2.1.emailsSentThisMonth =
      some 43 := by
  have h := c10_trackEmailSend_ignores_period ⟨"welcome", "a@b.c", none⟩
    { c6Tenant with emailsSentThisMonth := some 42,
                    currentMonthStart := some ⟨2025, 9, 1⟩ }
    ⟨2025, 10, 15⟩ ⟨2025, 9, 1⟩ rfl (by norm_num)
  exact ⟨by norm_num, h.1, h.2.1⟩
